import Mathlib

/-
Verification of the q_scope OAuth 2.0 authorization-server core.

This file shallowly embeds the parts of the code base that the checked
properties talk about:

  * the Result envelopes (q_scope/implementations/datastrutures/__init__.py),
  * the condition chain (oauth2/helpers/condition_executor.py),
  * the refresh-token flow and its conditions
    (oauth2/oauth_flows/refresh_token_flow.py),
  * the pypika/SQLite stores (store/sqllite/pypika_imp/stores.py), modelled
    at the level of their observable row semantics,
  * the client registrar (oauth2/clients/registrar.py),
  * the client-secret hasher (oauth2/secrets/__init__.py), with the external
    argon2 and SHA-256 primitives treated as parameters.

Python integers are modelled as Int, Python strings as String, `None` as
Option.none, and truthiness of optional strings is made explicit.  Python
exceptions that the code can raise (KeyError on dict access, AttributeError
on missing attributes/methods) are modelled with an explicit error type.
-/

namespace QScope

/-! ## Result envelopes

Embeds SuccessResult / FailedResult from datastrutures/__init__.py.
`client_message` is a free payload in the code; for the condition chain it
only ever holds strings or None, which we model with `Option String`. -/

/-- Result envelope returned by a condition: either SuccessResult (status
True) or FailedResult (status False, with an error_code). -/
inductive CondResult where
  | success (rayId : String) (clientMessage : Option String)
  | failed (rayId : String) (clientMessage : Option String) (errorCode : String)
  deriving DecidableEq, Repr

/-- The `status` field of the envelope: True on SuccessResult, False on
FailedResult. -/
def CondResult.status : CondResult → Bool
  | .success _ _ => true
  | .failed _ _ _ => false

/-! ## Condition chain (oauth2/helpers/condition_executor.py)

A condition is an async predicate over the shared mutable context; we model
it as a function from the context to a result together with the (possibly
mutated) context.  A condition may also raise a Python exception, which we
model with `Except ε`.  `ConditionChain.execute` runs the conditions in
order and short-circuits on the first FailedResult, exactly as the loop in
the source does; exceptions propagate. -/

/-- A condition over context type Γ that can raise an exception of type ε. -/
def Cond (ε Γ : Type) : Type := Γ → Except ε (CondResult × Γ)

/-- ConditionChain.execute from condition_executor.py: run each condition in
order on the threaded context; if a result has status False return it
immediately, otherwise continue; after the loop return a fresh
SuccessResult with client_message None. -/
def ConditionChain.execute {ε Γ : Type} :
    List (Cond ε Γ) → Γ → String → Except ε (CondResult × Γ)
  | [], _ctx, rayId => .ok (.success rayId none, _ctx)
  | c :: rest, ctx, rayId =>
    match c ctx with
    | .error e => .error e
    | .ok (r, ctx') =>
      if r.status = false then .ok (r, ctx')
      else ConditionChain.execute rest ctx' rayId

/-- Helper for stating chain properties: thread a list of conditions through
the context, returning the final context provided every condition ran
without raising and returned a success result, and `none` otherwise. -/
def chainAll {ε Γ : Type} : List (Cond ε Γ) → Γ → Option Γ
  | [], ctx => some ctx
  | c :: rest, ctx =>
    match c ctx with
    | .error _ => none
    | .ok (r, ctx') => if r.status = false then none else chainAll rest ctx'

/-! ## Data model (datastrutures/__init__.py)

The dataclasses, with epoch-second timestamps as Int and optional columns
as Option. -/

/-- OAuthClient dataclass: a row of oauth_clients. -/
structure OAuthClient where
  id : String
  clientIdentifier : String
  clientSecret : Option String
  isConfidential : Bool
  redirectUris : String
  grantTypes : String
  scopes : Option String
  isEnabled : Bool
  createdAt : Int
  createdBy : String
  updatedAt : Int
  updatedBy : String
  deriving DecidableEq, Repr

/-- OAuthClientConfig dataclass: a row of oauth_client_configs. -/
structure OAuthClientConfig where
  clientId : String
  responseTypes : String
  requirePkce : Bool
  pkceMethods : Option String
  accessTokenTtl : Int
  refreshTokenTtl : Option Int
  authorizationCodeTtl : Int
  maxActiveAccessTokens : Option Int
  maxActiveRefreshTokens : Option Int
  deviceCodeTtl : Option Int
  devicePollInterval : Option Int
  metadata : Option String
  createdAt : Int
  createdBy : String
  updatedAt : Int
  updatedBy : String
  deriving DecidableEq, Repr

/-- AccessToken dataclass: a row of oauth_access_tokens. -/
structure AccessToken where
  id : String
  token : String
  clientId : String
  userId : Option String
  scopes : Option String
  expiresAt : Int
  revokedAt : Option Int
  createdAt : Int
  createdBy : String
  updatedAt : Int
  updatedBy : String
  deriving DecidableEq, Repr

/-- RefreshToken dataclass: a row of oauth_refresh_tokens. -/
structure RefreshToken where
  id : String
  token : String
  clientId : String
  userId : Option String
  scopes : Option String
  revokedAt : Option Int
  createdAt : Int
  createdBy : String
  updatedAt : Int
  updatedBy : String
  deriving DecidableEq, Repr

/-- AuditLog dataclass: a row of oauth_audit_log. -/
structure AuditLog where
  id : String
  eventType : String
  subject : Option String
  clientId : Option String
  userId : Option String
  metadata : Option String
  createdAt : Int
  createdBy : String
  updatedAt : Int
  updatedBy : String
  deriving DecidableEq, Repr

/-! ## Store layer (store/sqllite/pypika_imp/stores.py)

The SQLite database is modelled as lists of rows, one per table, in
insertion (rowid) order.  `fetchone` on an equality WHERE clause is
`List.find?`; an INSERT fails exactly when it would violate a PRIMARY KEY
or UNIQUE constraint of the schema used by the repository's tests
(tests/test_refresh_token_flow.py, tests/test_client_registrar.py);
a failed INSERT leaves the table unchanged and is reported through a
FailedResult envelope. -/

/-- Database state: one list of rows per table used by the claims. -/
structure DBState where
  clients : List OAuthClient
  clientConfigs : List OAuthClientConfig
  accessTokens : List AccessToken
  refreshTokens : List RefreshToken
  auditLog : List AuditLog
  deriving DecidableEq, Repr

/-- Result of a store fetch: SuccessResult carrying the row in
client_message, or FailedResult with an error_code. -/
inductive FetchResult (α : Type) where
  | success (clientMessage : α)
  | failed (errorCode : String)
  deriving DecidableEq, Repr

/-- Result of a store mutation (insert/update/delete): SuccessResult, or
FailedResult with an error_code. -/
inductive StoreResult where
  | success
  | failed (errorCode : String)
  deriving DecidableEq, Repr

/-- OAuthClientStore.get_by_client_identifier: SELECT ... WHERE
client_identifier = ?, fetchone; NOT_FOUND when no row matches. -/
def OAuthClientStore.get_by_client_identifier (db : DBState)
    (clientIdentifier : String) : FetchResult OAuthClient :=
  match db.clients.find? (fun r => r.clientIdentifier = clientIdentifier) with
  | some r => .success r
  | none => .failed "NOT_FOUND"

/-- OAuthClientStore.insert: INSERT into oauth_clients; fails with
INSERT_FAILED when the PRIMARY KEY (id) or the UNIQUE column
(client_identifier) is already taken. -/
def OAuthClientStore.insert (db : DBState) (row : OAuthClient) :
    StoreResult × DBState :=
  if db.clients.any (fun r => r.id = row.id ∨ r.clientIdentifier = row.clientIdentifier)
  then (.failed "INSERT_FAILED", db)
  else (.success, { db with clients := db.clients ++ [row] })

/-- OAuthClientStore.delete_by_id: DELETE ... WHERE id = ?; NOT_FOUND when
rowcount is 0. -/
def OAuthClientStore.delete_by_id (db : DBState) (id : String) :
    StoreResult × DBState :=
  if db.clients.any (fun r => r.id = id)
  then (.success, { db with clients := db.clients.filter (fun r => r.id ≠ id) })
  else (.failed "NOT_FOUND", db)

/-- OAuthClientConfigStore.insert: INSERT into oauth_client_configs; fails
with INSERT_FAILED when the PRIMARY KEY (client_id) is already taken. -/
def OAuthClientConfigStore.insert (db : DBState) (row : OAuthClientConfig) :
    StoreResult × DBState :=
  if db.clientConfigs.any (fun r => r.clientId = row.clientId)
  then (.failed "INSERT_FAILED", db)
  else (.success, { db with clientConfigs := db.clientConfigs ++ [row] })

/-- OAuthClientConfigStore.get_by_client_id: SELECT ... WHERE client_id = ?,
fetchone; NOT_FOUND when no row matches. -/
def OAuthClientConfigStore.get_by_client_id (db : DBState)
    (clientId : String) : FetchResult OAuthClientConfig :=
  match db.clientConfigs.find? (fun r => r.clientId = clientId) with
  | some r => .success r
  | none => .failed "NOT_FOUND"

/-- RefreshTokenStore.get_by_token: SELECT ... WHERE token = ?, fetchone;
NOT_FOUND when no row matches. -/
def RefreshTokenStore.get_by_token (db : DBState) (token : String) :
    FetchResult RefreshToken :=
  match db.refreshTokens.find? (fun r => r.token = token) with
  | some r => .success r
  | none => .failed "NOT_FOUND"

/-- RefreshTokenStore.insert: INSERT into oauth_refresh_tokens; fails with
INSERT_FAILED when the PRIMARY KEY (id) or UNIQUE column (token) is taken. -/
def RefreshTokenStore.insert (db : DBState) (row : RefreshToken) :
    StoreResult × DBState :=
  if db.refreshTokens.any (fun r => r.id = row.id ∨ r.token = row.token)
  then (.failed "INSERT_FAILED", db)
  else (.success, { db with refreshTokens := db.refreshTokens ++ [row] })

/-- AccessTokenStore.insert: INSERT into oauth_access_tokens; fails with
INSERT_FAILED when the PRIMARY KEY (id) or UNIQUE column (token) is taken. -/
def AccessTokenStore.insert (db : DBState) (row : AccessToken) :
    StoreResult × DBState :=
  if db.accessTokens.any (fun r => r.id = row.id ∨ r.token = row.token)
  then (.failed "INSERT_FAILED", db)
  else (.success, { db with accessTokens := db.accessTokens ++ [row] })

/-- AccessTokenStore.count_by_refresh_token: the schema has no link from
access tokens to the originating refresh token, so the implementation
returns 0 unconditionally (stores.py lines 674-696). -/
def AccessTokenStore.count_by_refresh_token (_db : DBState)
    (_refreshTokenId : String) : Int :=
  0

/-- AccessTokenStore.get_oldest_by_refresh_token: returns None
unconditionally, for the same schema reason (stores.py lines 698-700). -/
def AccessTokenStore.get_oldest_by_refresh_token (_db : DBState)
    (_refreshTokenId : String) : Option AccessToken :=
  none

/-- Modelled from the spec: `If rotated: set revoked_at = now on the
predecessor` (spec 4.3 postcondition 2).  The flow calls
`storage.refresh_tokens.revoke(id, timestamp, ray_id)` but no class in the
repository defines a `revoke` method on the refresh-token store; this
definition supplies the spec's semantics so flow-level postconditions can
be stated. -/
def RefreshTokenStore.revoke (db : DBState) (id : String) (timestamp : Int) :
    DBState :=
  { db with
    refreshTokens := db.refreshTokens.map fun r =>
      if r.id = id then { r with revokedAt := some timestamp } else r }

/-- Modelled from the spec: `If not rotated: update the predecessor's
updated_at = now` (spec 4.3 postcondition 3).  The flow calls
`storage.refresh_tokens.update_timestamp(id, timestamp, ray_id)`, which no
class in the repository defines; this definition supplies the spec's
semantics. -/
def RefreshTokenStore.update_timestamp (db : DBState) (id : String)
    (timestamp : Int) : DBState :=
  { db with
    refreshTokens := db.refreshTokens.map fun r =>
      if r.id = id then { r with updatedAt := timestamp } else r }

/-! ### Method tables

The method names each concrete store class defines (its own `def`s plus the
ones inherited from the table templates in store/templates/__init__.py),
and the store method names the refresh-token flow invokes.  These are read
off the class bodies verbatim; they let us state which flow calls resolve
to a method and which raise AttributeError at run time. -/

/-- Methods of class OAuthClientStore (stores.py lines 17-296). -/
def OAuthClientStore.methodNames : List String :=
  ["insert", "get_by_id", "get_by_client_identifier", "update", "delete_by_id"]

/-- Methods of class RefreshTokenStore (stores.py lines 703-796). -/
def RefreshTokenStore.methodNames : List String :=
  ["insert", "get_by_id", "get_by_token", "update", "delete_by_id"]

/-- Methods of class AccessTokenStore (stores.py lines 557-700), including
delete_by_token inherited from AccessTokenTable. -/
def AccessTokenStore.methodNames : List String :=
  ["insert", "get_by_id", "get_by_token", "update", "delete_by_id",
   "delete_by_token", "count_by_refresh_token", "get_oldest_by_refresh_token"]

/-- The client-store method AuthenticateClientCondition.validate invokes
(refresh_token_flow.py line 51): `self._storage.clients.get_by_identifier`. -/
def AuthenticateClientCondition.clientStoreMethodCalled : String :=
  "get_by_identifier"

/-- The refresh-token-store methods RefreshTokenFlow._postconditions invokes
on the rotated path (refresh_token_flow.py lines 292-309). -/
def RefreshTokenFlow.rotatedRefreshStoreMethodsCalled : List String :=
  ["revoke", "insert"]

/-- The refresh-token-store method RefreshTokenFlow._postconditions invokes
on the non-rotated path (refresh_token_flow.py line 312). -/
def RefreshTokenFlow.nonRotatedRefreshStoreMethodCalled : String :=
  "update_timestamp"

/-- The access-token-store method CheckAccessTokenLimitCondition.validate
invokes when an oldest token is found (refresh_token_flow.py line 194). -/
def CheckAccessTokenLimitCondition.revokeMethodCalled : String :=
  "revoke"

/-! ## Refresh-token flow (oauth2/oauth_flows/refresh_token_flow.py)

The request context is the dict built by the controller, with the derived
entries the conditions store into it.  `context.get(k)` on a missing key is
None (modelled by the Option fields starting at none); `context[k]` raises
KeyError, and attribute access on None raises AttributeError — both are
modelled by `PyErr`.  Python truthiness of an optional string (`if not x`)
is false for None and for the empty string. -/

/-- Python run-time errors the flow code can raise. -/
inductive PyErr where
  | keyError (key : String)
  | attributeError (name : String)
  deriving DecidableEq, Repr

/-- The request context dict: the four transport entries plus the derived
entries conditions store (client_obj, client_config, refresh_token_obj). -/
structure FlowContext where
  refreshToken : Option String := none
  scope : Option String := none
  clientId : Option String := none
  clientSecret : Option String := none
  clientObj : Option OAuthClient := none
  clientConfig : Option OAuthClientConfig := none
  refreshTokenObj : Option RefreshToken := none
  deriving DecidableEq, Repr

/-- Python truthiness of an optional string: None and the empty string are
falsy. -/
def pyTruthy : Option String → Bool
  | none => false
  | some s => s ≠ ""

/-- A flow condition acts on the context and the database; the quota
condition may also mutate the database (revocation), so the threaded state
is the pair. -/
structure FlowState where
  ctx : FlowContext
  db : DBState
  deriving DecidableEq, Repr

/-- ValidateRefreshTokenPresenceCondition.validate: fail with
INVALID_REQUEST when context.refresh_token is missing or empty. -/
def ValidateRefreshTokenPresenceCondition.validate (rayId : String) : Cond PyErr FlowState :=
  fun s =>
    if pyTruthy s.ctx.refreshToken = false then
      .ok (.failed rayId (some "Missing refresh_token parameter") "oauth.invalid_request", s)
    else
      .ok (.success rayId none, s)

/-- Modelled from the spec: `Resolve client by client_identifier` (spec 4.3
precondition 2).  AuthenticateClientCondition calls
`self._storage.clients.get_by_identifier`, a method no store class defines
(see the method tables above); the lookup is modelled here with the
semantics of OAuthClientStore.get_by_client_identifier, which is the
matching lookup the store does define. -/
def clients_get_by_identifier (db : DBState) (clientIdentifier : String) :
    FetchResult OAuthClient :=
  OAuthClientStore.get_by_client_identifier db clientIdentifier

/-- AuthenticateClientCondition.validate, parameterized by the secret
hasher's verify function (called as
`verify secret hashedSecret userId clientId`, with `user_id :=
client.created_by` and `client_id := client.id` as at lines 83-88). -/
def AuthenticateClientCondition.validate
    (verify : String → String → String → String → Bool) (rayId : String) :
    Cond PyErr FlowState :=
  fun s =>
    let clientId := s.ctx.clientId
    let clientSecret := s.ctx.clientSecret
    if pyTruthy clientId = false then
      .ok (.failed rayId (some "Missing client_id") "oauth.invalid_client", s)
    else
      match clients_get_by_identifier s.db (clientId.getD "") with
      | .failed _ =>
        .ok (.failed rayId (some "Invalid client") "oauth.invalid_client", s)
      | .success client =>
        let step2 : Except PyErr (CondResult × FlowState) :=
          let sWithClient : FlowState :=
            { s with ctx := { s.ctx with clientObj := some client } }
          match OAuthClientConfigStore.get_by_client_id s.db client.id with
          | .success config =>
            .ok (.success rayId none,
                 { sWithClient with
                   ctx := { sWithClient.ctx with clientConfig := some config } })
          | .failed _ =>
            .ok (.failed rayId (some "Client configuration missing") "oauth.server_error",
                 sWithClient)
        if client.isConfidential then
          if pyTruthy clientSecret = false then
            .ok (.failed rayId (some "Missing client_secret") "oauth.invalid_client", s)
          else if pyTruthy client.clientSecret = false then
            .ok (.failed rayId (some "Configuration error") "oauth.server_error", s)
          else if verify (clientSecret.getD "") (client.clientSecret.getD "")
                    client.createdBy client.id = false then
            .ok (.failed rayId (some "Invalid client credentials") "oauth.invalid_client", s)
          else step2
        else step2

/-- ValidateRefreshTokenCondition.validate: look the token up by value,
reject unknown, revoked, or wrong-owner tokens with INVALID_GRANT, then
store refresh_token_obj in the context.  The ownership check dereferences
`client.id`, raising AttributeError when client_obj was never stored. -/
def ValidateRefreshTokenCondition.validate (rayId : String) : Cond PyErr FlowState :=
  fun s =>
    let tokenStr := s.ctx.refreshToken
    match RefreshTokenStore.get_by_token s.db (tokenStr.getD "") with
    | .failed _ =>
      .ok (.failed rayId (some "Invalid refresh token") "oauth.invalid_grant", s)
    | .success token =>
      match token.revokedAt with
      | some _ =>
        .ok (.failed rayId (some "Refresh token revoked") "oauth.invalid_grant", s)
      | none =>
        match s.ctx.clientObj with
        | none => .error (.attributeError "id")
        | some client =>
          if token.clientId ≠ client.id then
            .ok (.failed rayId (some "Refresh token does not belong to client")
                   "oauth.invalid_grant", s)
          else
            .ok (.success rayId none,
                 { s with ctx := { s.ctx with refreshTokenObj := some token } })

/-- CheckAccessTokenLimitCondition.validate: no-op success when the client
config sets no limit; otherwise consult count_by_refresh_token (always 0)
and get_oldest_by_refresh_token (always None).  The revoke call in the
oldest-token branch targets `access_tokens.revoke`, a method the store does
not define, so that (dead) branch raises AttributeError. -/
def CheckAccessTokenLimitCondition.validate (rayId : String) : Cond PyErr FlowState :=
  fun s =>
    match s.ctx.clientConfig with
    | none => .error (.attributeError "max_active_access_tokens")
    | some config =>
      match config.maxActiveAccessTokens with
      | none => .ok (.success rayId none, s)
      | some limit =>
        match s.ctx.refreshTokenObj with
        | none => .error (.attributeError "id")
        | some refreshToken =>
          let count := AccessTokenStore.count_by_refresh_token s.db refreshToken.id
          if count ≥ limit then
            match AccessTokenStore.get_oldest_by_refresh_token s.db refreshToken.id with
            | some _oldest => .error (.attributeError "revoke")
            | none => .ok (.success rayId none, s)
          else .ok (.success rayId none, s)

/-- OAuthException raised by RefreshTokenFlow._preconditions on the first
failed condition: carries the envelope's error_code and client_message. -/
structure OAuthExc where
  errorCode : String
  message : Option String
  deriving DecidableEq, Repr

/-- RefreshTokenFlow._preconditions: run the four conditions through
ConditionChain.execute and raise OAuthException(result.error_code,
result.client_message) when the chain returns a failure. -/
def RefreshTokenFlow.preconditions
    (verify : String → String → String → String → Bool)
    (s : FlowState) (rayId : String) :
    Except PyErr (Except OAuthExc FlowState) :=
  match ConditionChain.execute
      [ValidateRefreshTokenPresenceCondition.validate rayId,
       AuthenticateClientCondition.validate verify rayId,
       ValidateRefreshTokenCondition.validate rayId,
       CheckAccessTokenLimitCondition.validate rayId] s rayId with
  | .error e => .error e
  | .ok (r, s') =>
    match r with
    | .success _ _ => .ok (.ok s')
    | .failed _ msg code => .ok (.error ⟨code, msg⟩)

/-- Process configuration seen by the flow: the rotation policy toggle. -/
structure FlowConfig where
  rotateRefreshTokens : Bool
  deriving DecidableEq, Repr

/-- The result map RefreshTokenFlow._run returns. -/
structure RunResult where
  accessToken : String
  tokenType : String
  expiresIn : Int
  refreshToken : String
  scope : Option String
  originalRefreshTokenId : String
  isRotated : Bool
  deriving DecidableEq, Repr

/-- RefreshTokenFlow._run: pure construction of the new credentials.
`uuidAccess` and `uuidRefresh` stand for the two uuid4() draws; the final
scope is the requested scope when truthy, the refresh token's scopes
otherwise, with no subset validation (the source carries a
`Validate scope subset if provided (implied TODO)` comment at line 241). -/
def RefreshTokenFlow.run (config : FlowConfig)
    (uuidAccess uuidRefresh : String) (ctx : FlowContext) :
    Except PyErr RunResult :=
  match ctx.refreshTokenObj with
  | none => .error (.keyError "refresh_token_obj")
  | some refreshTokenObj =>
    match ctx.clientConfig with
    | none => .error (.keyError "client_config")
    | some clientConfig =>
      let requestedScope := ctx.scope
      let finalScope :=
        if pyTruthy requestedScope then requestedScope else refreshTokenObj.scopes
      let accessTokenStr := uuidAccess
      let expiresIn := clientConfig.accessTokenTtl
      let newRefreshTokenStr :=
        if config.rotateRefreshTokens then uuidRefresh else refreshTokenObj.token
      .ok
        { accessToken := accessTokenStr
          tokenType := "Bearer"
          expiresIn := expiresIn
          refreshToken := newRefreshTokenStr
          scope := finalScope
          originalRefreshTokenId := refreshTokenObj.id
          isRotated := newRefreshTokenStr ≠ refreshTokenObj.token }

/-- RefreshTokenFlow._postconditions: insert the new access-token row, then
either revoke the predecessor and insert the replacement refresh token
(rotated) or touch the predecessor's updated_at (not rotated).  The insert
envelopes are awaited but discarded by the source, so only their state
effect remains.  `uuidAccessRow` and `uuidRefreshRow` stand for the row-id
uuid4() draws, and `timestamp` for clock.now().  The audit step (spec 4.3
postcondition 4) is absent: the audit insert at lines 314-316 is commented
out, so no audit row is ever written. -/
def RefreshTokenFlow.postconditions (uuidAccessRow uuidRefreshRow : String)
    (timestamp : Int) (ctx : FlowContext) (result : RunResult) (db : DBState) :
    Except PyErr DBState :=
  match ctx.clientObj with
  | none => .error (.keyError "client_obj")
  | some client =>
    match ctx.refreshTokenObj with
    | none => .error (.keyError "refresh_token_obj")
    | some refreshTokenObj =>
      let accessToken : AccessToken :=
        { id := uuidAccessRow
          token := result.accessToken
          clientId := client.id
          userId := refreshTokenObj.userId
          scopes := result.scope
          expiresAt := timestamp + result.expiresIn
          revokedAt := none
          createdAt := timestamp
          createdBy := "system"
          updatedAt := timestamp
          updatedBy := "system" }
      let db := (AccessTokenStore.insert db accessToken).2
      if result.isRotated then
        let db := RefreshTokenStore.revoke db refreshTokenObj.id timestamp
        let newRefreshToken : RefreshToken :=
          { id := uuidRefreshRow
            token := result.refreshToken
            clientId := client.id
            userId := refreshTokenObj.userId
            scopes := result.scope
            revokedAt := none
            createdAt := timestamp
            createdBy := "system"
            updatedAt := timestamp
            updatedBy := "system" }
        .ok (RefreshTokenStore.insert db newRefreshToken).2
      else
        .ok (RefreshTokenStore.update_timestamp db refreshTokenObj.id timestamp)

/-- Helper for scopeSet: split a character list on spaces, accumulating the
current word in reverse. -/
def splitWordsAux : List Char → List Char → List String
  | [], acc => if acc = [] then [] else [String.mk acc.reverse]
  | ch :: cs, acc =>
    if ch = ' ' then
      if acc = [] then splitWordsAux cs []
      else String.mk acc.reverse :: splitWordsAux cs []
    else splitWordsAux cs (ch :: acc)

/-- Scope strings compared as sets (spec I5: scopes are space-separated
strings, comparison is set-based): the list of words of a scope string,
membership giving the set view. -/
def scopeSet (s : String) : List String :=
  splitWordsAux s.data []

/-! ## Secret hasher (oauth2/secrets/__init__.py)

Argon2ClientSecretHasher delegates to the external argon2 library and to
hashlib's SHA-256; both are collaborators outside this repository, so they
enter the embedding as parameters: `sha256hex` stands for
`hashlib.sha256(x.encode()).hexdigest()`, and an `Argon2Model` stands for
the library's PasswordHasher, whose verify either returns a boolean, raises
VerifyMismatchError, or raises InvalidHash.  The contextualization logic
and the exception handling are translated from the source. -/

/-- Outcome of the argon2 library's PasswordHasher.verify: a returned
boolean, a VerifyMismatchError, or an InvalidHash error. -/
inductive Argon2Outcome where
  | verified (b : Bool)
  | verifyMismatchError
  | invalidHashError
  deriving DecidableEq, Repr

/-- Model of the external argon2 PasswordHasher over an abstract type H of
stored hash values. -/
structure Argon2Model (H : Type) where
  hash : String → H
  verify : H → String → Argon2Outcome

/-- Ideal-KDF contract for the argon2 model: a hash of a contextual secret
verifies exactly against that secret, any other candidate raises
VerifyMismatchError, and a value that is not a produced hash raises
InvalidHash. -/
def Argon2Model.Ideal {H : Type} (A : Argon2Model H) : Prop :=
  (∀ cs, A.verify (A.hash cs) cs = .verified true) ∧
  (∀ cs cs', cs ≠ cs' → A.verify (A.hash cs) cs' = .verifyMismatchError) ∧
  (∀ h cs, (∀ cs₂, h ≠ A.hash cs₂) → A.verify h cs = .invalidHashError)

/-- Argon2ClientSecretHasher._contextualize_secret: append a colon and the
hex SHA-256 of "user_id:client_id" to the raw secret. -/
def Argon2ClientSecretHasher.contextualize_secret (sha256hex : String → String)
    (secret userId clientId : String) : String :=
  secret ++ ":" ++ sha256hex (userId ++ ":" ++ clientId)

/-- Argon2ClientSecretHasher.hash: reject an empty secret with ValueError,
otherwise hash the contextualized secret. -/
def Argon2ClientSecretHasher.hash {H : Type} (A : Argon2Model H)
    (sha256hex : String → String) (secret userId clientId : String) :
    Except String H :=
  if secret = "" then .error "secret must not be empty"
  else .ok (A.hash (Argon2ClientSecretHasher.contextualize_secret
    sha256hex secret userId clientId))

/-- Argon2ClientSecretHasher.verify: verify the contextualized secret
against the stored hash; VerifyMismatchError and InvalidHash are both
caught and yield false. -/
def Argon2ClientSecretHasher.verify {H : Type} (A : Argon2Model H)
    (sha256hex : String → String) (secret : String) (hashedSecret : H)
    (userId clientId : String) : Bool :=
  match A.verify hashedSecret (Argon2ClientSecretHasher.contextualize_secret
      sha256hex secret userId clientId) with
  | .verified b => b
  | .verifyMismatchError => false
  | .invalidHashError => false

/-! ## Client registrar (oauth2/clients/registrar.py)

register_client with its collaborators as parameters: `secretGen` is the
secret generator (generate_secret(user_id)), `hashFn` the hasher
(hash(secret, user_id, client_id)), `jsonDumps` the metadata serializer,
`generatedClientId` the uuid4() draw, and `currentTime` int(time.time()). -/

/-- RegistrationRequest dataclass. -/
structure RegistrationRequest where
  userId : String
  clientIdentifier : String
  isConfidential : Bool
  redirectUris : List String
  grantTypes : List String
  responseTypes : List String
  scopes : List String
  requirePkce : Bool
  pkceMethods : Option (List String)
  accessTokenTtl : Int
  refreshTokenTtl : Option Int
  authorizationCodeTtl : Int
  maxActiveAccessTokens : Option Int
  maxActiveRefreshTokens : Option Int
  deviceCodeTtl : Option Int
  devicePollInterval : Option Int
  metadata : Option (List (String × String))
  deriving DecidableEq, Repr

/-- Client dataclass: the value returned to the caller, carrying the
plaintext secret exactly once. -/
structure Client where
  id : String
  clientIdentifier : String
  userId : String
  isConfidential : Bool
  clientSecret : Option String
  redirectUris : List String
  grantTypes : List String
  responseTypes : List String
  scopes : List String
  requirePkce : Bool
  pkceMethods : Option (List String)
  accessTokenTtl : Int
  refreshTokenTtl : Option Int
  authorizationCodeTtl : Int
  maxActiveAccessTokens : Option Int
  maxActiveRefreshTokens : Option Int
  deviceCodeTtl : Option Int
  devicePollInterval : Option Int
  isEnabled : Bool
  createdAt : Int
  createdBy : String
  deriving DecidableEq, Repr

/-- Outcome of register_client: SuccessResult carrying the Client object, or
a FailedResult identified by its error_code. -/
inductive RegOutcome where
  | success (client : Client)
  | failed (errorCode : String)
  deriving DecidableEq, Repr

/-- Whitespace test for str.strip(): the ASCII whitespace characters. -/
def isSpaceChar (c : Char) : Bool :=
  c = ' ' ∨ c = '\t' ∨ c = '\n' ∨ c = '\r'

/-- Python str.strip(): drop leading and trailing whitespace. -/
def pyStrip (s : String) : String :=
  String.mk (((s.data.dropWhile isSpaceChar).reverse.dropWhile isSpaceChar).reverse)

/-- ClientRegistrar._serialize_list: " ".join(items). -/
def ClientRegistrar.serialize_list (items : List String) : String :=
  String.intercalate " " items

/-- ClientRegistrar._validate_request: the six checks in source order; some
failure on the first violated one, none when all pass. -/
def ClientRegistrar.validate_request (request : RegistrationRequest) :
    Option RegOutcome :=
  if request.userId = "" ∨ pyStrip request.userId = "" then
    some (.failed "INVALID_REQUEST")
  else if request.clientIdentifier = "" ∨ pyStrip request.clientIdentifier = "" then
    some (.failed "INVALID_REQUEST")
  else if request.redirectUris.length = 0 then
    some (.failed "INVALID_REQUEST")
  else if request.grantTypes.length = 0 then
    some (.failed "INVALID_REQUEST")
  else if request.accessTokenTtl ≤ 0 then
    some (.failed "INVALID_REQUEST")
  else if request.authorizationCodeTtl ≤ 0 then
    some (.failed "INVALID_REQUEST")
  else none

/-- The OAuthClient identity row register_client builds (registrar.py lines
120-133); is_enabled is hard-coded True. -/
def ClientRegistrar.mkOAuthClient (hashedSecret : Option String)
    (generatedClientId : String) (currentTime : Int)
    (request : RegistrationRequest) : OAuthClient :=
  { id := generatedClientId
    clientIdentifier := request.clientIdentifier
    clientSecret := hashedSecret
    isConfidential := request.isConfidential
    redirectUris := ClientRegistrar.serialize_list request.redirectUris
    grantTypes := ClientRegistrar.serialize_list request.grantTypes
    scopes :=
      if request.scopes ≠ [] then
        some (ClientRegistrar.serialize_list request.scopes)
      else none
    isEnabled := true
    createdAt := currentTime
    createdBy := request.userId
    updatedAt := currentTime
    updatedBy := request.userId }

/-- The OAuthClientConfig row register_client builds (registrar.py lines
136-153). -/
def ClientRegistrar.mkOAuthClientConfig
    (jsonDumps : List (String × String) → String)
    (generatedClientId : String) (currentTime : Int)
    (request : RegistrationRequest) : OAuthClientConfig :=
  { clientId := generatedClientId
    responseTypes := ClientRegistrar.serialize_list request.responseTypes
    requirePkce := request.requirePkce
    pkceMethods :=
      match request.pkceMethods with
      | some ms =>
        if ms ≠ [] then some (ClientRegistrar.serialize_list ms) else none
      | none => none
    accessTokenTtl := request.accessTokenTtl
    refreshTokenTtl := request.refreshTokenTtl
    authorizationCodeTtl := request.authorizationCodeTtl
    maxActiveAccessTokens := request.maxActiveAccessTokens
    maxActiveRefreshTokens := request.maxActiveRefreshTokens
    deviceCodeTtl := request.deviceCodeTtl
    devicePollInterval := request.devicePollInterval
    metadata :=
      match request.metadata with
      | some m => if m ≠ [] then some (jsonDumps m) else none
      | none => none
    createdAt := currentTime
    createdBy := request.userId
    updatedAt := currentTime
    updatedBy := request.userId }

/-- The Client value register_client returns (registrar.py lines 170-192);
it carries the plaintext secret and is_enabled hard-coded True. -/
def ClientRegistrar.mkClient (plaintextSecret : Option String)
    (generatedClientId : String) (currentTime : Int)
    (request : RegistrationRequest) : Client :=
  { id := generatedClientId
    clientIdentifier := request.clientIdentifier
    userId := request.userId
    isConfidential := request.isConfidential
    clientSecret := plaintextSecret
    redirectUris := request.redirectUris
    grantTypes := request.grantTypes
    responseTypes := request.responseTypes
    scopes := request.scopes
    requirePkce := request.requirePkce
    pkceMethods := request.pkceMethods
    accessTokenTtl := request.accessTokenTtl
    refreshTokenTtl := request.refreshTokenTtl
    authorizationCodeTtl := request.authorizationCodeTtl
    maxActiveAccessTokens := request.maxActiveAccessTokens
    maxActiveRefreshTokens := request.maxActiveRefreshTokens
    deviceCodeTtl := request.deviceCodeTtl
    devicePollInterval := request.devicePollInterval
    isEnabled := true
    createdAt := currentTime
    createdBy := request.userId }

/-- ClientRegistrar.register_client: validate, uniqueness-check, generate
and hash the secret for confidential clients, persist the identity row then
the configuration row, compensating with delete_by_id when the
configuration insert fails, and finally return the Client value with the
plaintext secret. -/
def ClientRegistrar.register_client
    (secretGen : String → String)
    (hashFn : String → String → String → String)
    (jsonDumps : List (String × String) → String)
    (generatedClientId : String) (currentTime : Int)
    (request : RegistrationRequest) (db : DBState) : RegOutcome × DBState :=
  match ClientRegistrar.validate_request request with
  | some out => (out, db)
  | none =>
    match OAuthClientStore.get_by_client_identifier db request.clientIdentifier with
    | .success _ => (.failed "DUPLICATE_CLIENT_IDENTIFIER", db)
    | .failed fetchCode =>
      if fetchCode ≠ "NOT_FOUND" then (.failed fetchCode, db)
      else
        let plaintextSecret : Option String :=
          if request.isConfidential then some (secretGen request.userId) else none
        let hashedSecret : Option String :=
          plaintextSecret.map fun sec => hashFn sec request.userId generatedClientId
        let oauthClient : OAuthClient :=
          ClientRegistrar.mkOAuthClient hashedSecret generatedClientId
            currentTime request
        let oauthConfig : OAuthClientConfig :=
          ClientRegistrar.mkOAuthClientConfig jsonDumps generatedClientId
            currentTime request
        match OAuthClientStore.insert db oauthClient with
        | (.failed code, db₁) => (.failed code, db₁)
        | (.success, db₁) =>
          match OAuthClientConfigStore.insert db₁ oauthConfig with
          | (.failed code, db₂) =>
            let db₃ := (OAuthClientStore.delete_by_id db₂ generatedClientId).2
            (.failed code, db₃)
          | (.success, db₂) =>
            let client : Client :=
              ClientRegistrar.mkClient plaintextSecret generatedClientId
                currentTime request
            (.success client, db₂)

/-- The 1:1 invariant I1 restricted to what registration can affect: every
client row has a configuration row with matching client_id. -/
def clientsHaveConfigs (db : DBState) : Prop :=
  ∀ r ∈ db.clients, ∃ cfg ∈ db.clientConfigs, cfg.clientId = r.id

/-! ## Concrete fixtures

Concrete rows, contexts and database states used to evaluate the code
on the inputs the checked properties name.  They mirror the spec's
end-to-end values (clock.now() = 1000, client web-app with
access_token_ttl 3600) and the repository's own test fixtures. -/

/-- Confidential client web-app with a stored argon2 hash. -/
def c1client : OAuthClient :=
  { id := "cid-1", clientIdentifier := "web-app",
    clientSecret := some "argon2-hash-of-valid-secret", isConfidential := true,
    redirectUris := "https://a/cb", grantTypes := "authorization_code refresh_token",
    scopes := some "read write", isEnabled := true,
    createdAt := 0, createdBy := "user_123", updatedAt := 0, updatedBy := "user_123" }

/-- Configuration for web-app: access_token_ttl 3600, no quota. -/
def c1config : OAuthClientConfig :=
  { clientId := "cid-1", responseTypes := "code", requirePkce := true,
    pkceMethods := some "S256", accessTokenTtl := 3600,
    refreshTokenTtl := some 2592000, authorizationCodeTtl := 600,
    maxActiveAccessTokens := none, maxActiveRefreshTokens := none,
    deviceCodeTtl := none, devicePollInterval := none, metadata := none,
    createdAt := 0, createdBy := "user_123", updatedAt := 0, updatedBy := "user_123" }

/-- Unrevoked refresh token "valid" granted only scope "read". -/
def c1rt : RefreshToken :=
  { id := "rtid-1", token := "valid", clientId := "cid-1",
    userId := some "user_123", scopes := some "read", revokedAt := none,
    createdAt := 0, createdBy := "user_123", updatedAt := 0, updatedBy := "user_123" }

/-- Database holding the web-app client, its config, and the refresh
token. -/
def c1db : DBState :=
  { clients := [c1client], clientConfigs := [c1config], accessTokens := [],
    refreshTokens := [c1rt], auditLog := [] }

/-- Token request asking scope "read write" against the "read"-scoped
token. -/
def c1ctx : FlowContext :=
  { refreshToken := some "valid", scope := some "read write",
    clientId := some "web-app", clientSecret := some "valid_secret" }

/-- Flow state for the over-broad scope request. -/
def c1state : FlowState := { ctx := c1ctx, db := c1db }

/-- The context after the full precondition chain: client, config, and
refresh-token objects stored. -/
def c1state' : FlowState :=
  { ctx :=
      { c1ctx with
        clientObj := some c1client
        clientConfig := some c1config
        refreshTokenObj := some c1rt }
    db := c1db }

/-- Hasher stub accepting the presented secret (the stored hash matches). -/
def c1verify : String → String → String → String → Bool := fun _ _ _ _ => true

/-- Expected _run output for the over-broad scope request with rotation
enabled and uuid draws "uuid-at" / "uuid-rt". -/
def c1run : RunResult :=
  { accessToken := "uuid-at", tokenType := "Bearer", expiresIn := 3600,
    refreshToken := "uuid-rt", scope := some "read write",
    originalRefreshTokenId := "rtid-1", isRotated := true }

/-- Flow context for the rotation counterexample: same over-broad scope
request, already past the precondition chain. -/
def c3ctx : FlowContext :=
  { refreshToken := some "valid", scope := some "read write",
    clientId := some "web-app", clientSecret := some "valid_secret",
    clientObj := some c1client, clientConfig := some c1config,
    refreshTokenObj := some c1rt }

/-- _run output for the rotation counterexample (uuid draws "at-3" /
"rt-3"). -/
def c3run : RunResult :=
  { accessToken := "at-3", tokenType := "Bearer", expiresIn := 3600,
    refreshToken := "rt-3", scope := some "read write",
    originalRefreshTokenId := "rtid-1", isRotated := true }

/-- The replacement refresh token the postconditions insert at
clock.now() = 1000. -/
def c3newRt : RefreshToken :=
  { id := "rtid-3n", token := "rt-3", clientId := "cid-1",
    userId := some "user_123", scopes := some "read write", revokedAt := none,
    createdAt := 1000, createdBy := "system", updatedAt := 1000, updatedBy := "system" }

/-- The database after the rotation postconditions: access token inserted,
predecessor revoked at 1000, replacement inserted. -/
def c3db' : DBState :=
  { clients := [c1client], clientConfigs := [c1config],
    accessTokens :=
      [{ id := "atid-3", token := "at-3", clientId := "cid-1",
         userId := some "user_123", scopes := some "read write",
         expiresAt := 4600, revokedAt := none, createdAt := 1000,
         createdBy := "system", updatedAt := 1000, updatedBy := "system" }],
    refreshTokens := [{ c1rt with revokedAt := some 1000 }, c3newRt],
    auditLog := [] }

/-- Confidential client whose stored client_secret column is NULL. -/
def c4client : OAuthClient :=
  { id := "cid-4", clientIdentifier := "app-4", clientSecret := none,
    isConfidential := true, redirectUris := "https://a/cb",
    grantTypes := "refresh_token", scopes := some "read", isEnabled := true,
    createdAt := 0, createdBy := "user_4", updatedAt := 0, updatedBy := "user_4" }

/-- Flow state presenting a secret to the hash-less confidential client. -/
def c4state : FlowState :=
  { ctx := { refreshToken := some "rt", clientId := some "app-4",
             clientSecret := some "some-secret" },
    db := { clients := [c4client], clientConfigs := [], accessTokens := [],
            refreshTokens := [], auditLog := [] } }

/-- Confidential client with a stored hash, for the mismatch branch. -/
def c4clientB : OAuthClient :=
  { c4client with
    id := "cid-4b"
    clientIdentifier := "app-4b"
    clientSecret := some "stored-hash" }

/-- Flow state presenting a wrong secret to the hashed client. -/
def c4stateB : FlowState :=
  { ctx := { refreshToken := some "rt", clientId := some "app-4b",
             clientSecret := some "wrong-secret" },
    db := { clients := [c4clientB], clientConfigs := [], accessTokens := [],
            refreshTokens := [], auditLog := [] } }

/-- Hasher stub rejecting the presented secret. -/
def c4verify : String → String → String → String → Bool := fun _ _ _ _ => false

/-- Client config with max_active_access_tokens = 5 for the quota claim. -/
def c5config : OAuthClientConfig :=
  { c1config with clientId := "cid-5", maxActiveAccessTokens := some 5 }

/-- Refresh token for the quota claim. -/
def c5rt : RefreshToken :=
  { c1rt with id := "rtid-5", token := "tok-5", clientId := "cid-5" }

/-- Flow state with the quota-limited config and token resolved. -/
def c5state : FlowState :=
  { ctx := { refreshToken := some "tok-5", clientId := some "app-5",
             clientConfig := some c5config, refreshTokenObj := some c5rt },
    db := { clients := [], clientConfigs := [c5config], accessTokens := [],
            refreshTokens := [c5rt], auditLog := [] } }

/-- A pre-existing audit row, to observe that postconditions append
nothing. -/
def c6audit : AuditLog :=
  { id := "aud-0", eventType := "client.registered", subject := none,
    clientId := some "cid-1", userId := some "user_123", metadata := none,
    createdAt := 10, createdBy := "system", updatedAt := 10, updatedBy := "system" }

/-- Database for the audit claim: the c1 rows plus one audit entry. -/
def c6db : DBState :=
  { clients := [c1client], clientConfigs := [c1config], accessTokens := [],
    refreshTokens := [c1rt], auditLog := [c6audit] }

/-- A valid registration request (confidential web-app). -/
def c10request : RegistrationRequest :=
  { userId := "user_123", clientIdentifier := "web-app", isConfidential := true,
    redirectUris := ["https://a/cb"],
    grantTypes := ["authorization_code", "refresh_token"],
    responseTypes := ["code"], scopes := ["read", "write"], requirePkce := true,
    pkceMethods := some ["S256"], accessTokenTtl := 3600,
    refreshTokenTtl := some 2592000, authorizationCodeTtl := 600,
    maxActiveAccessTokens := some 5, maxActiveRefreshTokens := some 3,
    deviceCodeTtl := none, devicePollInterval := none, metadata := none }

/-- Empty database for the registration fixtures. -/
def emptyDB : DBState :=
  { clients := [], clientConfigs := [], accessTokens := [], refreshTokens := [],
    auditLog := [] }

/-- Secret generator stub for registration fixtures. -/
def c10gen : String → String := fun u => "raw-secret-for-" ++ u

/-- Hasher stub for registration fixtures. -/
def c10hash : String → String → String → String :=
  fun sec u c => "argon2(" ++ sec ++ "," ++ u ++ "," ++ c ++ ")"

/-- Metadata serializer stub for registration fixtures. -/
def c10dumps : List (String × String) → String := fun _ => "\x7b\x7d"

/-- An orphan configuration row occupying client_id "cid-7". -/
def c7cfgRow : OAuthClientConfig :=
  { clientId := "cid-7", responseTypes := "code", requirePkce := false,
    pkceMethods := none, accessTokenTtl := 60, refreshTokenTtl := none,
    authorizationCodeTtl := 60, maxActiveAccessTokens := none,
    maxActiveRefreshTokens := none, deviceCodeTtl := none,
    devicePollInterval := none, metadata := none, createdAt := 0,
    createdBy := "admin", updatedAt := 0, updatedBy := "admin" }

/-- Database with the orphan configuration row, so the configuration insert
of a registration that draws "cid-7" fails while the identity insert
succeeds. -/
def c7db : DBState :=
  { clients := [], accessTokens := [], refreshTokens := [], auditLog := [],
    clientConfigs := [c7cfgRow] }

/-- Ideal instance of the argon2 model over Option String: a hash is the
wrapped contextual secret, verification compares for equality, and the only
non-hash value (none) is a malformed hash. -/
def idealArgon2 : Argon2Model (Option String) :=
  { hash := fun cs => some cs
    verify := fun h cs =>
      match h with
      | some cs' => if cs' = cs then .verified true else .verifyMismatchError
      | none => .invalidHashError }

/-- Post-chain flow context for the audit claim (scope "read" requested,
all derived objects resolved). -/
def c6ctx : FlowContext :=
  { refreshToken := some "valid", scope := some "read",
    clientId := some "web-app", clientSecret := some "valid_secret",
    clientObj := some c1client, clientConfig := some c1config,
    refreshTokenObj := some c1rt }

/-- _run output for the audit claim (uuid draws "at-6" / "rt-6"). -/
def c6run : RunResult :=
  { accessToken := "at-6", tokenType := "Bearer", expiresIn := 3600,
    refreshToken := "rt-6", scope := some "read",
    originalRefreshTokenId := "rtid-1", isRotated := true }

/-- Database after the audit claim's postconditions: rows mutated, audit
log untouched. -/
def c6db' : DBState :=
  { clients := [c1client], clientConfigs := [c1config],
    accessTokens :=
      [{ id := "atid-6", token := "at-6", clientId := "cid-1",
         userId := some "user_123", scopes := some "read", expiresAt := 4600,
         revokedAt := none, createdAt := 1000, createdBy := "system",
         updatedAt := 1000, updatedBy := "system" }],
    refreshTokens :=
      [{ c1rt with revokedAt := some 1000 },
       { id := "rtid-6", token := "rt-6", clientId := "cid-1",
         userId := some "user_123", scopes := some "read", revokedAt := none,
         createdAt := 1000, createdBy := "system", updatedAt := 1000,
         updatedBy := "system" }],
    auditLog := [c6audit] }

/-- A valid registration request for the compensation claim (public
client). -/
def c7request : RegistrationRequest :=
  { userId := "user_7", clientIdentifier := "app-7", isConfidential := false,
    redirectUris := ["https://seven/cb"], grantTypes := ["refresh_token"],
    responseTypes := ["code"], scopes := ["read"], requirePkce := true,
    pkceMethods := some ["S256"], accessTokenTtl := 900,
    refreshTokenTtl := none, authorizationCodeTtl := 300,
    maxActiveAccessTokens := none, maxActiveRefreshTokens := none,
    deviceCodeTtl := none, devicePollInterval := none, metadata := none }

/-- Expected identity row for the successful registration fixture. -/
def c10row : OAuthClient :=
  { id := "cid-10", clientIdentifier := "web-app",
    clientSecret := some "argon2(raw-secret-for-user_123,user_123,cid-10)",
    isConfidential := true, redirectUris := "https://a/cb",
    grantTypes := "authorization_code refresh_token",
    scopes := some "read write", isEnabled := true, createdAt := 500,
    createdBy := "user_123", updatedAt := 500, updatedBy := "user_123" }

/-- Expected configuration row for the successful registration fixture. -/
def c10cfg : OAuthClientConfig :=
  { clientId := "cid-10", responseTypes := "code", requirePkce := true,
    pkceMethods := some "S256", accessTokenTtl := 3600,
    refreshTokenTtl := some 2592000, authorizationCodeTtl := 600,
    maxActiveAccessTokens := some 5, maxActiveRefreshTokens := some 3,
    deviceCodeTtl := none, devicePollInterval := none, metadata := none,
    createdAt := 500, createdBy := "user_123", updatedAt := 500,
    updatedBy := "user_123" }

/-- Expected Client value returned by the successful registration
fixture. -/
def c10client : Client :=
  { id := "cid-10", clientIdentifier := "web-app", userId := "user_123",
    isConfidential := true, clientSecret := some "raw-secret-for-user_123",
    redirectUris := ["https://a/cb"],
    grantTypes := ["authorization_code", "refresh_token"],
    responseTypes := ["code"], scopes := ["read", "write"],
    requirePkce := true, pkceMethods := some ["S256"], accessTokenTtl := 3600,
    refreshTokenTtl := some 2592000, authorizationCodeTtl := 600,
    maxActiveAccessTokens := some 5, maxActiveRefreshTokens := some 3,
    deviceCodeTtl := none, devicePollInterval := none, isEnabled := true,
    createdAt := 500, createdBy := "user_123" }

/-- Expected database after the successful registration fixture. -/
def c10db' : DBState :=
  { clients := [c10row], clientConfigs := [c10cfg], accessTokens := [],
    refreshTokens := [], auditLog := [] }

/-- A condition over Nat contexts that succeeds and increments. -/
def c9succ : Cond Unit Nat := fun n => .ok (.success "ray" none, n + 1)

/-- A condition over Nat contexts that fails with code E_BOOM. -/
def c9fail : Cond Unit Nat := fun n => .ok (.failed "ray" (some "boom") "E_BOOM", n + 7)

/-- A later condition that would fail with a different code if evaluated. -/
def c9later : Cond Unit Nat := fun n => .ok (.failed "ray" none "LATER", n)

/-! ## Theorems -/

/-- C9: For every sequence of conditions and every context, the condition
chain evaluates the conditions strictly in declaration order and, at the
first condition whose result has status false, returns that exact failure
result without evaluating any later condition (the returned value does not
depend on the conditions after it); if no condition fails it returns a
success result. -/
theorem conditionChain_order_short_circuit {ε Γ : Type} :
    (∀ (pre post : List (Cond ε Γ)) (c : Cond ε Γ) (ctx ctx₁ ctx₂ : Γ)
        (r : CondResult) (rayId : String),
      chainAll pre ctx = some ctx₁ → c ctx₁ = .ok (r, ctx₂) → r.status = false →
      ConditionChain.execute (pre ++ c :: post) ctx rayId = .ok (r, ctx₂)) ∧
    (∀ (conds : List (Cond ε Γ)) (ctx ctx' : Γ) (rayId : String),
      chainAll conds ctx = some ctx' →
      ConditionChain.execute conds ctx rayId = .ok (.success rayId none, ctx')) := by
  constructor
  · intro pre
    induction pre with
    | nil =>
      intro post c ctx ctx₁ ctx₂ r rayId hpre hc hr
      simp only [chainAll] at hpre
      cases hpre
      simp [ConditionChain.execute, hc, hr]
    | cons p ps ih =>
      intro post c ctx ctx₁ ctx₂ r rayId hpre hc hr
      simp only [chainAll] at hpre
      cases hp : p ctx with
      | error e => rw [hp] at hpre; simp at hpre
      | ok pr =>
        obtain ⟨r₀, ctx₀⟩ := pr
        rw [hp] at hpre
        by_cases hs : r₀.status = false
        · simp [hs] at hpre
        · simp only [List.cons_append, ConditionChain.execute, hp]
          simp only [hs, if_false]
          simp only [hs, if_false] at hpre
          exact ih post c ctx₀ ctx₁ ctx₂ r rayId hpre hc hr
  · intro conds
    induction conds with
    | nil =>
      intro ctx ctx' rayId h
      simp only [chainAll] at h
      cases h
      rfl
    | cons p ps ih =>
      intro ctx ctx' rayId h
      simp only [chainAll] at h
      cases hp : p ctx with
      | error e => rw [hp] at h; simp at h
      | ok pr =>
        obtain ⟨r₀, ctx₀⟩ := pr
        rw [hp] at h
        by_cases hs : r₀.status = false
        · simp [hs] at h
        · simp only [ConditionChain.execute, hp]
          simp only [hs, if_false]
          simp only [hs, if_false] at h
          exact ih ctx₀ ctx' rayId h

/-- Witness for C9: a concrete chain where the second condition fails;
the chain returns exactly that failure with the context as mutated so far,
ignoring the later condition, and a failure-free chain succeeds. -/
theorem conditionChain_order_short_circuit_witness :
    chainAll [c9succ] 0 = some 1 ∧
    c9fail 1 = .ok (.failed "ray" (some "boom") "E_BOOM", 8) ∧
    CondResult.status (.failed "ray" (some "boom") "E_BOOM") = false ∧
    ConditionChain.execute [c9succ, c9fail, c9later] 0 "ray"
      = .ok (.failed "ray" (some "boom") "E_BOOM", 8) ∧
    ConditionChain.execute [c9succ, c9succ] 0 "ray"
      = .ok (.success "ray" none, 2) :=
  ⟨rfl, rfl, rfl,
   conditionChain_order_short_circuit.1 [c9succ] [c9later] c9fail 0 1 8
     (.failed "ray" (some "boom") "E_BOOM") "ray" rfl rfl rfl,
   conditionChain_order_short_circuit.2 [c9succ, c9succ] 0 2 "ray" rfl⟩

/-- C5: with the present schema access tokens carry no link to the
originating refresh token: count_by_refresh_token returns 0 and
get_oldest_by_refresh_token returns None for every input, so the quota
condition always returns success without revoking anything and without
failing, and the counted number of active access tokens for the quota
scope (always 0) never exceeds the configured limit N. -/
theorem quota_check_noop (s : FlowState) (rayId : String)
    (cfg : OAuthClientConfig) (rt : RefreshToken) (n : Int)
    (hcfg : s.ctx.clientConfig = some cfg)
    (hrt : s.ctx.refreshTokenObj = some rt)
    (hn : cfg.maxActiveAccessTokens = some n) (hn0 : 0 ≤ n) :
    CheckAccessTokenLimitCondition.validate rayId s = .ok (.success rayId none, s) ∧
    (∀ (db : DBState) (id : String),
      AccessTokenStore.count_by_refresh_token db id = 0) ∧
    (∀ (db : DBState) (id : String),
      AccessTokenStore.get_oldest_by_refresh_token db id = none) ∧
    AccessTokenStore.count_by_refresh_token s.db rt.id ≤ n := by
  refine ⟨?_, fun _ _ => rfl, fun _ _ => rfl, hn0⟩
  simp only [CheckAccessTokenLimitCondition.validate, hcfg, hrt, hn,
    AccessTokenStore.count_by_refresh_token,
    AccessTokenStore.get_oldest_by_refresh_token]
  split <;> rfl

/-- Witness for C5: the quota condition on a concrete state with
max_active_access_tokens = 5 succeeds without touching the state. -/
theorem quota_check_noop_witness :
    c5state.ctx.clientConfig = some c5config ∧
    c5state.ctx.refreshTokenObj = some c5rt ∧
    c5config.maxActiveAccessTokens = some 5 ∧ (0 : Int) ≤ 5 ∧
    CheckAccessTokenLimitCondition.validate "w5" c5state
      = .ok (.success "w5" none, c5state) :=
  ⟨rfl, rfl, rfl, by decide,
   (quota_check_noop c5state "w5" c5config c5rt 5 rfl rfl rfl (by decide)).1⟩

/-- C4 counterexample: for a confidential client whose stored
client_secret column is NULL, the authentication condition fails with
SERVER_ERROR (client_message "Configuration error"), not with the
INVALID_CLIENT the claim states. -/
theorem authenticate_missing_hash_not_invalid_client :
    AuthenticateClientCondition.validate c1verify "w4" c4state
      = .ok (.failed "w4" (some "Configuration error") "oauth.server_error", c4state) ∧
    "oauth.server_error" ≠ "oauth.invalid_client" :=
  ⟨rfl, by decide⟩

/-- C4 amended: for a token request whose resolved client is confidential
and whose client_secret is supplied, a stored record without a secret hash
makes the condition fail with SERVER_ERROR, and a supplied secret that does
not verify against the stored hash makes it fail with INVALID_CLIENT. -/
theorem authenticate_confidential_secret_checks
    (verify : String → String → String → String → Bool) (rayId : String)
    (s : FlowState) (client : OAuthClient)
    (hid : pyTruthy s.ctx.clientId = true)
    (hlook : clients_get_by_identifier s.db (s.ctx.clientId.getD "")
      = .success client)
    (hconf : client.isConfidential = true)
    (hsec : pyTruthy s.ctx.clientSecret = true) :
    (pyTruthy client.clientSecret = false →
      AuthenticateClientCondition.validate verify rayId s
        = .ok (.failed rayId (some "Configuration error") "oauth.server_error", s)) ∧
    (∀ h, client.clientSecret = some h → h ≠ "" →
      verify (s.ctx.clientSecret.getD "") h client.createdBy client.id = false →
      AuthenticateClientCondition.validate verify rayId s
        = .ok (.failed rayId (some "Invalid client credentials")
            "oauth.invalid_client", s)) := by
  constructor
  · intro hmiss
    simp [AuthenticateClientCondition.validate, hid, hlook, hconf, hsec, hmiss]
  · intro h hm hne hv
    have hct : pyTruthy client.clientSecret = true := by simp [pyTruthy, hm, hne]
    simp [AuthenticateClientCondition.validate, hid, hlook, hconf, hsec, hct,
      hm, hv]
    simp [pyTruthy, hne]

/-- Witness for C4: concrete confidential client with a stored hash and a
rejecting verifier; the condition fails with INVALID_CLIENT. -/
theorem authenticate_confidential_secret_checks_witness :
    pyTruthy c4stateB.ctx.clientId = true ∧
    clients_get_by_identifier c4stateB.db (c4stateB.ctx.clientId.getD "")
      = .success c4clientB ∧
    c4clientB.isConfidential = true ∧
    c4clientB.clientSecret = some "stored-hash" ∧
    AuthenticateClientCondition.validate c4verify "w4b" c4stateB
      = .ok (.failed "w4b" (some "Invalid client credentials")
          "oauth.invalid_client", c4stateB) :=
  ⟨rfl, rfl, rfl, rfl,
   (authenticate_confidential_secret_checks c4verify "w4b" c4stateB c4clientB
       rfl rfl rfl rfl).2 "stored-hash" rfl (by decide) rfl⟩

/-- C1 (code evaluated at the failing input): with a refresh token granted
only scope "read" and a request asking "read write", the whole precondition
chain passes — no condition produces INVALID_SCOPE — and _run copies the
unchecked requested scope into the issued credentials, although the
requested scope set is not a subset of the granted one ("write" is
requested but not granted). -/
theorem scope_superset_request_passes_preconditions :
    RefreshTokenFlow.preconditions c1verify c1state "w1" = .ok (.ok c1state') ∧
    RefreshTokenFlow.run ⟨true⟩ "uuid-at" "uuid-rt" c1state'.ctx = .ok c1run ∧
    c1run.scope = some "read write" ∧
    c1rt.scopes = some "read" ∧
    "write" ∈ scopeSet "read write" ∧
    "write" ∉ scopeSet "read" :=
  ⟨rfl, rfl, rfl, rfl, by decide, by decide⟩

/-- C2: the flow's storage wiring does not exist on the concrete stores the
application and tests inject: client resolution targets
`get_by_identifier`, and the postconditions target `revoke` and
`update_timestamp` on the refresh-token store (and `revoke` on the
access-token store in the quota branch); none of these names is a method of
the respective store class, so the spec's end-to-end rotation request
raises AttributeError instead of returning the claimed success. -/
theorem scenario_store_methods_missing :
    AuthenticateClientCondition.clientStoreMethodCalled ∉ OAuthClientStore.methodNames ∧
    "revoke" ∈ RefreshTokenFlow.rotatedRefreshStoreMethodsCalled ∧
    "revoke" ∉ RefreshTokenStore.methodNames ∧
    RefreshTokenFlow.nonRotatedRefreshStoreMethodCalled ∉ RefreshTokenStore.methodNames ∧
    CheckAccessTokenLimitCondition.revokeMethodCalled ∉ AccessTokenStore.methodNames := by
  decide

/-- C3 (code evaluated at the failing input): a rotation driven by the
unchecked requested scope "read write" on a predecessor granted only
"read" inserts a replacement refresh token that keeps the predecessor's
client_id and user_id but whose scope set is not a subset of the
predecessor's. -/
theorem rotation_copies_unchecked_scope :
    RefreshTokenFlow.run ⟨true⟩ "at-3" "rt-3" c3ctx = .ok c3run ∧
    RefreshTokenFlow.postconditions "atid-3" "rtid-3n" 1000 c3ctx c3run c1db
      = .ok c3db' ∧
    c3newRt ∈ c3db'.refreshTokens ∧
    c3newRt.clientId = c1rt.clientId ∧
    c3newRt.userId = c1rt.userId ∧
    c3newRt.scopes = some "read write" ∧
    "write" ∈ scopeSet "read write" ∧
    "write" ∉ scopeSet (c1rt.scopes.getD "") :=
  ⟨rfl, rfl, by decide, rfl, rfl, rfl, by decide, by decide⟩

/-- Inserting an access token never touches the audit log. -/
theorem accessInsert_auditLog (db : DBState) (row : AccessToken) :
    ((AccessTokenStore.insert db row).2).auditLog = db.auditLog := by
  unfold AccessTokenStore.insert
  split <;> rfl

/-- Inserting a refresh token never touches the audit log. -/
theorem refreshInsert_auditLog (db : DBState) (row : RefreshToken) :
    ((RefreshTokenStore.insert db row).2).auditLog = db.auditLog := by
  unfold RefreshTokenStore.insert
  split <;> rfl

/-- Revoking a refresh token never touches the audit log. -/
theorem refreshRevoke_auditLog (db : DBState) (id : String) (ts : Int) :
    (RefreshTokenStore.revoke db id ts).auditLog = db.auditLog :=
  rfl

/-- Touching a refresh token's updated_at never touches the audit log. -/
theorem refreshUpdateTs_auditLog (db : DBState) (id : String) (ts : Int) :
    (RefreshTokenStore.update_timestamp db id ts).auditLog = db.auditLog :=
  rfl

/-- C6 (code evaluated): _postconditions never writes an audit row — for
every input on which it completes, the audit log is unchanged, because the
audit insert at refresh_token_flow.py lines 314-316 is commented out.  The
claim that a token.issued entry is appended as the last durable step fails
on every successful execution. -/
theorem postconditions_append_no_audit_entry
    (uuidA uuidR : String) (ts : Int) (ctx : FlowContext) (result : RunResult)
    (db db' : DBState)
    (h : RefreshTokenFlow.postconditions uuidA uuidR ts ctx result db = .ok db') :
    db'.auditLog = db.auditLog := by
  unfold RefreshTokenFlow.postconditions at h
  cases hc : ctx.clientObj with
  | none => simp [hc] at h
  | some client =>
    cases hr : ctx.refreshTokenObj with
    | none => simp [hc, hr] at h
    | some rtObj =>
      simp only [hc, hr] at h
      by_cases hrot : result.isRotated = true
      · rw [if_pos hrot] at h
        injection h with h
        subst h
        rw [refreshInsert_auditLog, refreshRevoke_auditLog, accessInsert_auditLog]
      · rw [if_neg hrot] at h
        injection h with h
        subst h
        rw [refreshUpdateTs_auditLog, accessInsert_auditLog]

/-- Witness for C6: a concrete successful rotation whose final state keeps
the audit log exactly as it was. -/
theorem postconditions_append_no_audit_entry_witness :
    RefreshTokenFlow.postconditions "atid-6" "rtid-6" 1000 c6ctx c6run c6db
      = .ok c6db' ∧
    c6db'.auditLog = c6db.auditLog :=
  ⟨rfl, postconditions_append_no_audit_entry "atid-6" "rtid-6" 1000 c6ctx
    c6run c6db c6db' rfl⟩

/-- A some-result of _validate_request is always an INVALID_REQUEST
failure. -/
theorem validate_request_some (request : RegistrationRequest) (out : RegOutcome)
    (h : ClientRegistrar.validate_request request = some out) :
    out = .failed "INVALID_REQUEST" := by
  unfold ClientRegistrar.validate_request at h
  split_ifs at h <;> simp_all

/-- A successful client insert appends exactly the new row. -/
theorem clientInsert_success (db : DBState) (row : OAuthClient) (db' : DBState)
    (h : OAuthClientStore.insert db row = (.success, db')) :
    db' = { db with clients := db.clients ++ [row] } := by
  unfold OAuthClientStore.insert at h
  split_ifs at h <;> simp_all

/-- A failed client insert leaves the database unchanged. -/
theorem clientInsert_failed_state (db : DBState) (row : OAuthClient)
    (code : String) (db' : DBState)
    (h : OAuthClientStore.insert db row = (.failed code, db')) :
    db' = db := by
  unfold OAuthClientStore.insert at h
  split_ifs at h <;> simp_all

/-- A successful config insert appends exactly the new row. -/
theorem configInsert_success (db : DBState) (row : OAuthClientConfig)
    (db' : DBState)
    (h : OAuthClientConfigStore.insert db row = (.success, db')) :
    db' = { db with clientConfigs := db.clientConfigs ++ [row] } := by
  unfold OAuthClientConfigStore.insert at h
  split_ifs at h <;> simp_all

/-- A failed config insert leaves the database unchanged. -/
theorem configInsert_failed_state (db : DBState) (row : OAuthClientConfig)
    (code : String) (db' : DBState)
    (h : OAuthClientConfigStore.insert db row = (.failed code, db')) :
    db' = db := by
  unfold OAuthClientConfigStore.insert at h
  split_ifs at h <;> simp_all

/-- C10: every registration register_client accepts stores a client-identity
row with is_enabled = True and returns a Client value with
is_enabled = True: registration can never create a disabled client. -/
theorem register_client_enables_client
    (secretGen : String → String) (hashFn : String → String → String → String)
    (jsonDumps : List (String × String) → String) (genId : String) (now : Int)
    (request : RegistrationRequest) (db db' : DBState) (c : Client)
    (h : ClientRegistrar.register_client secretGen hashFn jsonDumps genId now
      request db = (.success c, db')) :
    c.isEnabled = true ∧
    ∃ row, db'.clients = db.clients ++ [row] ∧ row.id = genId ∧
      row.isEnabled = true := by
  unfold ClientRegistrar.register_client at h
  cases hval : ClientRegistrar.validate_request request with
  | some out =>
    simp only [hval] at h
    rw [validate_request_some request out hval] at h
    exact absurd (congrArg Prod.fst h) (by simp)
  | none =>
    simp only [hval] at h
    cases hdup : OAuthClientStore.get_by_client_identifier db
        request.clientIdentifier with
    | success cl =>
      simp only [hdup] at h
      exact absurd (congrArg Prod.fst h) (by simp)
    | failed code =>
      simp only [hdup] at h
      by_cases hcode : code ≠ "NOT_FOUND"
      · rw [if_pos hcode] at h
        exact absurd (congrArg Prod.fst h) (by simp)
      · rw [if_neg hcode] at h
        split at h
        · exact absurd (congrArg Prod.fst h) (by simp)
        · rename_i db₁ hins
          split at h
          · exact absurd (congrArg Prod.fst h) (by simp)
          · rename_i db₂ hcfg
            injection h with h1 h2
            injection h1 with h1
            subst h1
            subst h2
            have hdb₁ := clientInsert_success _ _ _ hins
            subst hdb₁
            have hdb₂ := configInsert_success _ _ _ hcfg
            subst hdb₂
            exact ⟨rfl, _, rfl, rfl, rfl⟩

/-- Witness for C10: a concrete successful registration; the returned
client and the stored identity row are enabled. -/
theorem register_client_enables_client_witness :
    ClientRegistrar.register_client c10gen c10hash c10dumps "cid-10" 500
      c10request emptyDB = (.success c10client, c10db') ∧
    (c10client.isEnabled = true ∧
      ∃ row, c10db'.clients = emptyDB.clients ++ [row] ∧ row.id = "cid-10" ∧
        row.isEnabled = true) :=
  ⟨rfl, register_client_enables_client c10gen c10hash c10dumps "cid-10" 500
    c10request emptyDB c10db' c10client rfl⟩

/-- A client insert whose row collides with no existing id or identifier
succeeds and appends the row. -/
theorem clientInsert_free (db : DBState) (row : OAuthClient)
    (hfree : ∀ r ∈ db.clients,
      r.id ≠ row.id ∧ r.clientIdentifier ≠ row.clientIdentifier) :
    OAuthClientStore.insert db row
      = (.success, { db with clients := db.clients ++ [row] }) := by
  unfold OAuthClientStore.insert
  have hc : ¬ (db.clients.any (fun r =>
      r.id = row.id ∨ r.clientIdentifier = row.clientIdentifier) = true) := by
    simp only [List.any_eq_true, decide_eq_true_eq]
    rintro ⟨r, hr, hor⟩
    rcases hor with h | h
    · exact (hfree r hr).1 h
    · exact (hfree r hr).2 h
  rw [if_neg hc]

/-- A collision-free client insert cannot fail. -/
theorem clientInsert_no_fail (db : DBState) (row : OAuthClient)
    (code : String) (db₁ : DBState)
    (hfree : ∀ r ∈ db.clients,
      r.id ≠ row.id ∧ r.clientIdentifier ≠ row.clientIdentifier)
    (h : OAuthClientStore.insert db row = (.failed code, db₁)) : False := by
  rw [clientInsert_free db row hfree] at h
  exact absurd h (by simp)

/-- A config insert whose client_id is already occupied fails with
INSERT_FAILED and leaves the database unchanged. -/
theorem configInsert_conflict (db : DBState) (row : OAuthClientConfig)
    (hconf : ∃ r ∈ db.clientConfigs, r.clientId = row.clientId) :
    OAuthClientConfigStore.insert db row = (.failed "INSERT_FAILED", db) := by
  unfold OAuthClientConfigStore.insert
  have hc : db.clientConfigs.any (fun r => r.clientId = row.clientId) = true := by
    simp only [List.any_eq_true, decide_eq_true_eq]
    exact hconf
  rw [if_pos hc]

/-- A conflicting config insert reports exactly INSERT_FAILED and keeps the
database. -/
theorem configInsert_fail_code (db : DBState) (row : OAuthClientConfig)
    (code : String) (db₂ : DBState)
    (hconf : ∃ r ∈ db.clientConfigs, r.clientId = row.clientId)
    (h : OAuthClientConfigStore.insert db row = (.failed code, db₂)) :
    code = "INSERT_FAILED" ∧ db₂ = db := by
  rw [configInsert_conflict db row hconf] at h
  injection h with h1 h2
  injection h1 with h1
  exact ⟨h1.symm, h2.symm⟩

/-- A conflicting config insert cannot succeed. -/
theorem configInsert_no_success (db : DBState) (row : OAuthClientConfig)
    (db₂ : DBState)
    (hconf : ∃ r ∈ db.clientConfigs, r.clientId = row.clientId)
    (h : OAuthClientConfigStore.insert db row = (.success, db₂)) : False := by
  rw [configInsert_conflict db row hconf] at h
  exact absurd h (by simp)

/-- Deleting the freshly appended identity row by its id restores the
previous client table (the id was free before the append). -/
theorem clientDelete_append_snd (db : DBState) (row : OAuthClient)
    (id : String) (hid : row.id = id)
    (hfree : ∀ r ∈ db.clients, r.id ≠ id) :
    (OAuthClientStore.delete_by_id
      { db with clients := db.clients ++ [row] } id).2 = db := by
  unfold OAuthClientStore.delete_by_id
  have hc : ((db.clients ++ [row]).any (fun r => r.id = id)) = true := by
    simp [List.any_append, hid]
  rw [if_pos hc]
  show ({ db with clients := (db.clients ++ [row]).filter (fun r => r.id ≠ id) } : DBState) = db
  have hfilter : (db.clients ++ [row]).filter (fun r => decide (r.id ≠ id))
      = db.clients := by
    rw [List.filter_append]
    have h1 : db.clients.filter (fun r => decide (r.id ≠ id)) = db.clients :=
      List.filter_eq_self.mpr (fun r hr => by simpa using hfree r hr)
    have h2 : ([row] : List OAuthClient).filter (fun r => decide (r.id ≠ id))
        = [] := by simp [hid]
    rw [h1, h2, List.append_nil]
  rw [hfilter]

/-- Deleting any appended row whose id matches the target from a state
satisfying the 1:1 invariant leaves the invariant intact. -/
theorem delete_after_append_invariant (db : DBState) (row : OAuthClient)
    (id : String) (hid : row.id = id) (hinv : clientsHaveConfigs db) :
    clientsHaveConfigs
      (OAuthClientStore.delete_by_id
        { db with clients := db.clients ++ [row] } id).2 := by
  unfold OAuthClientStore.delete_by_id
  have hc : ((db.clients ++ [row]).any (fun r => r.id = id)) = true := by
    simp [List.any_append, hid]
  rw [if_pos hc]
  intro r hr
  simp only [List.mem_filter, List.mem_append] at hr
  obtain ⟨hmem, hne⟩ := hr
  simp only [decide_eq_true_eq] at hne
  cases hmem with
  | inl h => exact hinv r h
  | inr h =>
    simp only [List.mem_singleton] at h
    subst h
    exact absurd hid hne

/-- C7: when the identity insert succeeds and the configuration insert
fails, register_client deletes the just-inserted identity row and returns
the configuration-insert failure, leaving the database exactly as before;
and after any failed registration, a database in which every client row had
its configuration row still has that property. -/
theorem register_client_compensates
    (secretGen : String → String) (hashFn : String → String → String → String)
    (jsonDumps : List (String × String) → String) (genId : String) (now : Int)
    (request : RegistrationRequest) (db : DBState)
    (hval : ClientRegistrar.validate_request request = none)
    (hdup : OAuthClientStore.get_by_client_identifier db
      request.clientIdentifier = .failed "NOT_FOUND")
    (hfree : ∀ r ∈ db.clients,
      r.id ≠ genId ∧ r.clientIdentifier ≠ request.clientIdentifier)
    (hconflict : ∃ r ∈ db.clientConfigs, r.clientId = genId) :
    ClientRegistrar.register_client secretGen hashFn jsonDumps genId now
      request db = (.failed "INSERT_FAILED", db) ∧
    (∀ (db₀ : DBState) (out : RegOutcome) (db' : DBState),
      clientsHaveConfigs db₀ →
      ClientRegistrar.register_client secretGen hashFn jsonDumps genId now
        request db₀ = (out, db') →
      (∀ client, out ≠ .success client) →
      clientsHaveConfigs db') := by
  constructor
  · unfold ClientRegistrar.register_client
    simp only [hval, hdup]
    rw [if_neg (by simp)]
    split
    · rename_i code db₁ hins
      exact (clientInsert_no_fail db _ code db₁
        (fun r hr => ⟨(hfree r hr).1, (hfree r hr).2⟩) hins).elim
    · rename_i db₁ hins
      have hdb₁ := clientInsert_success _ _ _ hins
      subst hdb₁
      split
      · rename_i code db₂ hcfg
        obtain ⟨hcode, hdb₂⟩ := configInsert_fail_code _ _ code db₂ hconflict hcfg
        subst hcode
        subst hdb₂
        have hdel : ∀ hs : Option String,
            (OAuthClientStore.delete_by_id
              { db with clients := db.clients ++
                [ClientRegistrar.mkOAuthClient hs genId now request] } genId).2
              = db :=
          fun hs => clientDelete_append_snd db
            (ClientRegistrar.mkOAuthClient hs genId now request) genId rfl
            (fun r hr => (hfree r hr).1)
        simp only [hdel]
      · rename_i db₂ hcfg
        exact (configInsert_no_success _ _ db₂ hconflict hcfg).elim
  · intro db₀ out db' hinv h hns
    unfold ClientRegistrar.register_client at h
    simp only [hval] at h
    cases hdup₀ : OAuthClientStore.get_by_client_identifier db₀
        request.clientIdentifier with
    | success cl =>
      simp only [hdup₀] at h
      injection h with h1 h2
      subst h2
      exact hinv
    | failed code =>
      simp only [hdup₀] at h
      by_cases hcode : code ≠ "NOT_FOUND"
      · rw [if_pos hcode] at h
        injection h with h1 h2
        subst h2
        exact hinv
      · rw [if_neg hcode] at h
        split at h
        · rename_i code₂ db₁ hins
          injection h with h1 h2
          subst h2
          rw [clientInsert_failed_state _ _ _ _ hins]
          exact hinv
        · rename_i db₁ hins
          split at h
          · rename_i code₃ db₂ hcfg
            injection h with h1 h2
            subst h2
            have hdb₁ := clientInsert_success _ _ _ hins
            subst hdb₁
            have hdb₂ := configInsert_failed_state _ _ _ _ hcfg
            subst hdb₂
            exact delete_after_append_invariant db₀ _ genId rfl hinv
          · rename_i db₂ hcfg
            injection h with h1 h2
            exact absurd h1.symm (hns _)

/-- Witness for C7: a concrete database with an orphan configuration row
occupying the drawn client_id; the identity insert succeeds, the
configuration insert fails, and register_client returns the configuration
failure with the database restored. -/
theorem register_client_compensates_witness :
    ClientRegistrar.validate_request c7request = none ∧
    OAuthClientStore.get_by_client_identifier c7db c7request.clientIdentifier
      = .failed "NOT_FOUND" ∧
    (∃ r ∈ c7db.clientConfigs, r.clientId = "cid-7") ∧
    ClientRegistrar.register_client c10gen c10hash c10dumps "cid-7" 700
      c7request c7db = (.failed "INSERT_FAILED", c7db) :=
  ⟨rfl, rfl, ⟨c7cfgRow, by simp [c7db], rfl⟩,
   (register_client_compensates c10gen c10hash c10dumps "cid-7" 700 c7request
     c7db rfl rfl (by simp [c7db]) ⟨c7cfgRow, by simp [c7db], rfl⟩).1⟩

/-- String append is left-cancellative. -/
theorem strAppend_left_cancel {a b c : String} (h : a ++ b = a ++ c) : b = c := by
  have h2 := congrArg String.data h
  simp only [String.data_append] at h2
  exact String.ext (List.append_cancel_left h2)

/-- String append is right-cancellative. -/
theorem strAppend_right_cancel {a b c : String} (h : a ++ c = b ++ c) : a = b := by
  have h2 := congrArg String.data h
  simp only [String.data_append] at h2
  exact String.ext (List.append_cancel_right h2)

/-- Two contextual secrets built for different users differ, provided
sha256hex is collision-free on the context strings. -/
theorem contextualize_ne_of_user (sha256hex : String → String)
    (hinj : Function.Injective sha256hex) (s u u' c : String) (hu : u' ≠ u) :
    Argon2ClientSecretHasher.contextualize_secret sha256hex s u' c
      ≠ Argon2ClientSecretHasher.contextualize_secret sha256hex s u c := by
  intro he
  unfold Argon2ClientSecretHasher.contextualize_secret at he
  have h1 := hinj (strAppend_left_cancel he)
  exact hu (strAppend_right_cancel (strAppend_right_cancel h1))

/-- Two contextual secrets built for different clients differ. -/
theorem contextualize_ne_of_client (sha256hex : String → String)
    (hinj : Function.Injective sha256hex) (s u c c' : String) (hc : c' ≠ c) :
    Argon2ClientSecretHasher.contextualize_secret sha256hex s u c'
      ≠ Argon2ClientSecretHasher.contextualize_secret sha256hex s u c := by
  intro he
  unfold Argon2ClientSecretHasher.contextualize_secret at he
  have h1 := hinj (strAppend_left_cancel he)
  exact hc (strAppend_left_cancel h1)

/-- Two contextual secrets built from different raw secrets differ. -/
theorem contextualize_ne_of_secret (sha256hex : String → String)
    (s s' u c : String) (hs : s' ≠ s) :
    Argon2ClientSecretHasher.contextualize_secret sha256hex s' u c
      ≠ Argon2ClientSecretHasher.contextualize_secret sha256hex s u c := by
  intro he
  unfold Argon2ClientSecretHasher.contextualize_secret at he
  exact hs (strAppend_right_cancel (strAppend_right_cancel he))

/-- C8: for every secret s, user u and client c, verifying s against
hash(s, u, c) under the same (u, c) returns true; verifying under a
different user or client, or with a different secret, returns false; and a
malformed stored hash makes verify return false rather than raise — under
the ideal-KDF contract for argon2 and collision-freeness (injectivity) of
the SHA-256 hex digest. -/
theorem hasher_context_binding {H : Type} (A : Argon2Model H)
    (sha256hex : String → String)
    (hideal : A.Ideal) (hinj : Function.Injective sha256hex)
    (s u c : String) (h : H)
    (hhash : Argon2ClientSecretHasher.hash A sha256hex s u c = .ok h) :
    Argon2ClientSecretHasher.verify A sha256hex s h u c = true ∧
    (∀ u', u' ≠ u → Argon2ClientSecretHasher.verify A sha256hex s h u' c = false) ∧
    (∀ c', c' ≠ c → Argon2ClientSecretHasher.verify A sha256hex s h u c' = false) ∧
    (∀ s', s' ≠ s → Argon2ClientSecretHasher.verify A sha256hex s' h u c = false) ∧
    (∀ m : H, (∀ x, m ≠ A.hash x) →
      Argon2ClientSecretHasher.verify A sha256hex s m u c = false) := by
  obtain ⟨hid1, hid2, hid3⟩ := hideal
  unfold Argon2ClientSecretHasher.hash at hhash
  by_cases hs : s = ""
  · rw [if_pos hs] at hhash
    exact absurd hhash (by simp)
  · rw [if_neg hs] at hhash
    injection hhash with hh
    subst hh
    refine ⟨?_, ?_, ?_, ?_, ?_⟩
    · unfold Argon2ClientSecretHasher.verify
      rw [hid1]
    · intro u' hu
      unfold Argon2ClientSecretHasher.verify
      rw [hid2 _ _ (Ne.symm (contextualize_ne_of_user sha256hex hinj s u u' c hu))]
    · intro c' hc
      unfold Argon2ClientSecretHasher.verify
      rw [hid2 _ _ (Ne.symm (contextualize_ne_of_client sha256hex hinj s u c c' hc))]
    · intro s' hsne
      unfold Argon2ClientSecretHasher.verify
      rw [hid2 _ _ (Ne.symm (contextualize_ne_of_secret sha256hex s s' u c hsne))]
    · intro m hm
      unfold Argon2ClientSecretHasher.verify
      rw [hid3 _ _ hm]

/-- Witness for C8: the ideal argon2 instance over Option String with the
identity digest; hashing "sec" for ("u1", "c1") verifies there and fails
for a different user, a different client, a wrong secret, and a malformed
(none) stored hash. -/
theorem hasher_context_binding_witness :
    idealArgon2.Ideal ∧
    Function.Injective (fun x : String => x) ∧
    Argon2ClientSecretHasher.hash idealArgon2 (fun x => x) "sec" "u1" "c1"
      = .ok (some "sec:u1:c1") ∧
    Argon2ClientSecretHasher.verify idealArgon2 (fun x => x) "sec"
      (some "sec:u1:c1") "u1" "c1" = true ∧
    Argon2ClientSecretHasher.verify idealArgon2 (fun x => x) "sec"
      (some "sec:u1:c1") "u2" "c1" = false ∧
    Argon2ClientSecretHasher.verify idealArgon2 (fun x => x) "sec"
      (some "sec:u1:c1") "u1" "c2" = false ∧
    Argon2ClientSecretHasher.verify idealArgon2 (fun x => x) "bad"
      (some "sec:u1:c1") "u1" "c1" = false ∧
    Argon2ClientSecretHasher.verify idealArgon2 (fun x => x) "sec"
      none "u1" "c1" = false := by
  have hideal : idealArgon2.Ideal := by
    refine ⟨?_, ?_, ?_⟩
    · intro cs
      simp [idealArgon2]
    · intro cs cs' hne
      simp [idealArgon2, hne]
    · intro hh cs hx
      cases hh with
      | some a => exact absurd rfl (hx a)
      | none => simp [idealArgon2]
  have hinj : Function.Injective (fun x : String => x) := fun a b hb => hb
  have main := hasher_context_binding idealArgon2 (fun x => x) hideal hinj
    "sec" "u1" "c1" (some "sec:u1:c1") rfl
  exact ⟨hideal, hinj, rfl, main.1, main.2.1 "u2" (by decide),
    main.2.2.1 "c2" (by decide), main.2.2.2.1 "bad" (by decide),
    main.2.2.2.2 none (fun x hx => Option.noConfusion hx)⟩

end QScope
